import Mathlib

/-!
Shallow embedding of the `chatproxy` conversational session engine
(`client.go`, `chat.go`, `log.go`, and the embeddings `Top` ranking),
together with theorems checking the specification's claims about it.

Writers (`output`, `errorStream`, `transcript`) are modelled as `String`
accumulators: a `Fprintln` appends the text plus a newline.  The remote
completion service is a parameter: a function from the built request to
an abstract outcome (stream-creation failure, or a stream of tokens
followed by either end-of-stream or a read error).
-/

namespace Chatproxy

/-- `ChatMessage` from `client.go`: a role-tagged message. -/
structure ChatMessage where
  Content : String
  Role : String
deriving DecidableEq, Repr

def RoleUser : String := "user"
def RoleBot : String := "assistant"
def RoleSystem : String := "system"

/-- Go errors as the session engine distinguishes them: an
`openai.APIError` (status code and message), the `io.EOF` sentinel, and
any other error carrying only its text. -/
inductive GoError where
  | api (status : Nat) (msg : String)
  | eof
  | simple (msg : String)
deriving DecidableEq, Repr

/-- Rendering of an error when printed to a writer; for `api` it follows
the `openai.APIError.Error()` format. -/
def GoError.render : GoError → String
  | .api status msg => "error, status code: " ++ toString status ++ ", message: " ++ msg
  | .eof => "EOF"
  | .simple msg => msg

/-- The mutable state of `ChatGPTClient`: chat history plus the three
writers modelled as string accumulators, the fixed-response override and
the streaming flag.  The `input` reader and the network handle live
outside the state (inputs are passed as a list of lines, the remote as a
function parameter). -/
structure ChatGPTClient where
  chatHistory : List ChatMessage
  output : String
  errorStream : String
  transcript : String
  fixedResponse : String
  streaming : Bool
deriving DecidableEq, Repr

/-- `WithFixedResponse` from `client.go`. -/
def WithFixedResponse (response : String) (c : ChatGPTClient) : ChatGPTClient :=
  { c with fixedResponse := response }

/-- `WithStreaming` from `client.go`. -/
def WithStreaming (streaming : Bool) (c : ChatGPTClient) : ChatGPTClient :=
  { c with streaming := streaming }

/-- `strings.ToUpper` as used on role tags, written over the character
list so that concrete instances evaluate in the kernel. -/
def goToUpper (s : String) : String := ⟨s.data.map Char.toUpper⟩

/-- `strings.HasPrefix`, written over the character lists. -/
def goHasPrefix (s pre : String) : Bool := pre.data.isPrefixOf s.data

/-- `s[n:]` on a Go string, written over the character list. -/
def goDrop (s : String) (n : Nat) : String := ⟨s.data.drop n⟩

/-- `logWithFormatting` from `log.go`: formats `ROLE) content` and writes
it to the transcript for bot/user/system roles (system lines are echoed
to the output as well), any other role only to the output. -/
def logWithFormatting (c : ChatGPTClient) (m : ChatMessage) : ChatGPTClient :=
  let formatted := goToUpper m.Role ++ ") " ++ m.Content
  if m.Role = RoleBot then
    { c with transcript := c.transcript ++ formatted ++ "\n" }
  else if m.Role = RoleUser then
    { c with transcript := c.transcript ++ formatted ++ "\n" }
  else if m.Role = RoleSystem then
    { c with transcript := c.transcript ++ formatted ++ "\n",
             output := c.output ++ formatted ++ "\n" }
  else
    { c with output := c.output ++ formatted ++ "\n" }

/-- `Log` from `log.go`. -/
def Log (c : ChatGPTClient) (role message : String) : ChatGPTClient :=
  logWithFormatting c ⟨message, role⟩

/-- `LogErr` from `log.go`: prints the error to the error stream. -/
def LogErr (c : ChatGPTClient) (e : GoError) : ChatGPTClient :=
  { c with errorStream := c.errorStream ++ GoError.render e ++ "\n" }

/-- `Prompt` from `log.go`: writes each prompt as `SYSTEM) …` and then
the `USER) ` prompt marker, all to the output. -/
def Prompt (c : ChatGPTClient) (prompts : List String) : ChatGPTClient :=
  let c := prompts.foldl
    (fun c p => { c with output := c.output ++ "SYSTEM) " ++ p ++ "\n" }) c
  { c with output := c.output ++ "USER) " }

/-- `SetPurpose` from `client.go`: prefixes the prompt with `PURPOSE: `,
overwrites element 0 of a non-empty history or appends as the sole
element, and logs the purpose as a system message. -/
def SetPurpose (c : ChatGPTClient) (prompt : String) : ChatGPTClient :=
  let purpose := "PURPOSE: " ++ prompt
  let m : ChatMessage := ⟨purpose, RoleSystem⟩
  let c :=
    if c.chatHistory.length > 0 then
      { c with chatHistory := c.chatHistory.set 0 m }
    else
      { c with chatHistory := c.chatHistory ++ [m] }
  Log c RoleSystem purpose

/-- `RecordMessage` from `client.go`: appends the message and logs it. -/
def RecordMessage (c : ChatGPTClient) (role message : String) : ChatGPTClient :=
  let c := { c with chatHistory := c.chatHistory ++ [⟨message, role⟩] }
  Log c role message

/-- `RollbackLastMessage` from `client.go`: drops the last message when
the history holds more than one, then always logs the rollback notice. -/
def RollbackLastMessage (c : ChatGPTClient) : ChatGPTClient :=
  let c :=
    if c.chatHistory.length > 1 then
      { c with chatHistory := c.chatHistory.dropLast }
    else
      c
  Log c RoleSystem "Last message rolled back"

/-- `openai.ChatCompletionRequest`, restricted to the fields the engine
reads or writes: the replayed messages, `MaxTokens`, the `Stop` list and
the streaming flag. -/
structure CompletionRequest where
  Messages : List ChatMessage
  MaxTokens : Nat
  Stop : List String
  Stream : Bool
deriving Repr

/-- `CompletionOption` from `client.go`: a request transformer. -/
def CompletionOption := CompletionRequest → CompletionRequest

/-- `WithFixedResponseAPIValidate` from `client.go`: caps the response at
one token and installs the response as the stop sequence. -/
def WithFixedResponseAPIValidate (response : String) : CompletionOption :=
  fun req => { req with MaxTokens := 1, Stop := [response] }

/-- Outcome of `client.CreateChatCompletionStream`: either the call
itself fails, or it yields a stream whose `Recv` produces `tokens` in
order and then terminates with `io.EOF` (`term = none`) or with a read
error (`term = some e`). -/
inductive RemoteResult where
  | failure (e : GoError)
  | stream (tokens : List String) (term : Option GoError)

/-- The remote completion service, abstracted as a function from the
built request to its outcome. -/
def Remote := CompletionRequest → RemoteResult

/-- `bufferedResponse` from `client.go`: concatenates the streamed
tokens; end-of-stream returns the message, a read error discards the
partial message and returns the error. -/
def bufferedResponse (tokens : List String) (term : Option GoError) :
    String × Option GoError :=
  match term with
  | none => (String.join tokens, none)
  | some e => ("", some e)

/-- `streamedResponse` from `client.go`: like `bufferedResponse` but
echoes the `ASSISTANT) ` tag and every token to the output as it
arrives, with a final newline on end-of-stream. -/
def streamedResponse (c : ChatGPTClient) (tokens : List String) (term : Option GoError) :
    ChatGPTClient × String × Option GoError :=
  let c := { c with output := c.output ++ "ASSISTANT) " }
  match term with
  | none =>
      ({ c with output := c.output ++ String.join tokens ++ "\n" }, String.join tokens, none)
  | some e =>
      ({ c with output := c.output ++ String.join tokens }, "", some e)

/-- The request `GetCompletion` builds before submitting: the full chat
history replayed in order as a streamed request, with the completion
options applied left to right. -/
def buildRequest (c : ChatGPTClient) (opts : List CompletionOption) : CompletionRequest :=
  opts.foldl (fun req opt => opt req)
    { Messages := c.chatHistory, MaxTokens := 0, Stop := [], Stream := true }

/-- The body of `GetCompletion` after the fixed-response guard: builds
the request, submits it, classifies stream-creation failures (HTTP 400 →
log, roll back, synthetic non-error reply; HTTP 401 → log, hard
authorization error; anything else → returned unchanged), discards the
streamed reply in favour of `Stop[0]` when a stop list is set, and
otherwise reads the stream in streaming or buffered mode. -/
def submitCompletion (remote : Remote) (c : ChatGPTClient)
    (opts : List CompletionOption) : ChatGPTClient × String × Option GoError :=
  let req := buildRequest c opts
  match remote req with
  | .failure e =>
      match e with
      | .api 400 msg =>
          let c := LogErr c (.api 400 msg)
          let c := RollbackLastMessage c
          (c, "Backing out of transaction: " ++ msg, none)
      | .api 401 msg =>
          let c := LogErr c (.api 401 msg)
          (c, "", some (.simple "unauthorized. Please check your OPENAI_TOKEN env var or pass a token in explicitly"))
      | e => (c, "", some e)
  | .stream tokens term =>
      match req.Stop with
      | s :: _ => (c, s, none)
      | [] =>
          if c.streaming then
            streamedResponse c tokens term
          else
            let (msg, err) := bufferedResponse tokens term
            (c, msg, err)

/-- `GetCompletion` from `client.go`: returns the fixed-response
override immediately when one is configured, otherwise submits the chat
history to the remote service. -/
def GetCompletion (remote : Remote) (c : ChatGPTClient)
    (opts : List CompletionOption) : ChatGPTClient × String × Option GoError :=
  if c.fixedResponse ≠ "" then
    (c, c.fixedResponse, none)
  else
    submitCompletion remote c opts

/-- The apostrophe character, kept out of string literals. -/
def apos : String := (Char.ofNat 39).toString

/-- `QuestionPrompt` from `chat.go`: the fixed reading-comprehension
prompt template (a Go raw string; interior lines are tab-indented). -/
def QuestionPrompt : String :=
  "Given the above text, generate some reading comprehension questions.\n" ++
  "\tIf I respond to the questions, you will give me a score out of 10 and how I can improve my answer.\n" ++
  "\tUse Bloom" ++ apos ++ "s Taxonomy (2001) to generate the questions. Do not generate questions about Bloom" ++ apos ++ "s Taxonomy.\n" ++
  "\tProduce only the questions, the user will provide the answers.\n" ++
  "\t\n" ++
  "\tBOT: Q: What is the end goal of teaching.\n" ++
  "\tUSER: A: To know the answers to questions.\n" ++
  "\tBOT: Feedback: 2/10 - This demonstrates only a surface understanding. \n" ++
  "\tUSER: A: To transfer knowledge in such a way that the learner can apply it in new situations.\n" ++
  "\tBOT: Feedback: 10/10 - This gets a the heart of the answer.\n" ++
  "\t"

/-- `Strategy` from `chat.go`, as a sum over its four implementations,
each carrying the raw input it was built from. -/
inductive Strategy where
  | FileLoad (input : String)
  | FileWrite (input : String)
  | Default (input : String)
  | Exit
deriving DecidableEq, Repr

/-- `GetStrategy` from `chat.go`: classifies one input line, in priority
order `>`-prefix, `<`-prefix, the literal `exit`, `?`-prefix (which
substitutes the fixed question template), and plain chat. -/
def GetStrategy (input : String) : Strategy :=
  if goHasPrefix input ">" then
    .FileLoad input
  else if goHasPrefix input "<" then
    .FileWrite input
  else if input = "exit" then
    .Exit
  else if goHasPrefix input "?" then
    .Default QuestionPrompt
  else
    .Default input

/-- Splits a character list around the first occurrence of `sep`,
returning `none` when `sep` does not occur. -/
def cutAux (sep : Char) : List Char → Option (List Char × List Char)
  | [] => none
  | c :: cs =>
      if c = sep then some ([], cs)
      else
        match cutAux sep cs with
        | none => none
        | some (a, b) => some (c :: a, b)

/-- `strings.Cut` from the Go standard library, for the single-character
separator the dispatcher uses: splits around the first occurrence,
reporting whether it was found. -/
def stringsCut (s : String) (sep : Char) : String × String × Bool :=
  match cutAux sep s.data with
  | none => (s, "", false)
  | some (a, b) => (⟨a⟩, ⟨b⟩, true)

/-- The session engine's external collaborators: the remote completion
service, the content loader behind `inputOutput`, and the file writer
behind `MessageToFile` (returning its error, if any). -/
structure Env where
  remote : Remote
  loader : String → Except GoError String
  writeMessageToFile : String → String → Option GoError

/-- `Execute` of the four strategies from `chat.go`. -/
def Strategy.Execute (env : Env) (s : Strategy) (c : ChatGPTClient) :
    ChatGPTClient × Option GoError :=
  match s with
  | .FileLoad input =>
      match env.loader (goDrop input 1) with
      | .error e => (LogErr c e, some e)
      | .ok line =>
          let c := RecordMessage c RoleUser line
          match GetCompletion env.remote c [WithFixedResponseAPIValidate "Files receieved!"] with
          | (c, _, some e) => (LogErr c e, some e)
          | (c, reply, none) => (RecordMessage c RoleBot reply, none)
  | .FileWrite input =>
      match stringsCut (goDrop input 1) ' ' with
      | (_, _, false) => (c, some (.simple "need a file and a prompt to write a file"))
      | (path, line, true) =>
          let c := RecordMessage c RoleUser line
          match GetCompletion env.remote c [] with
          | (c, _, some e) => (c, some e)
          | (c, code, none) => (c, env.writeMessageToFile code path)
  | .Default input =>
      let c := RecordMessage c RoleUser input
      match GetCompletion env.remote c [] with
      | (c, _, some e) => (c, some e)
      | (c, reply, none) => (RecordMessage c RoleBot reply, none)
  | .Exit => (Log c RoleUser "*exit*", some .eof)

/-- The scan loop of `Chat` from `chat.go`, over the remaining input
lines: the first line while the history is empty sets the purpose; every
later line is dispatched through `GetStrategy`, `io.EOF` breaks the
loop, any other strategy error is logged and the loop continues. -/
def ChatLoop (env : Env) (c : ChatGPTClient) : List String → ChatGPTClient
  | [] => c
  | line :: rest =>
      if c.chatHistory.length = 0 then
        let c := SetPurpose c line
        let c := Prompt c []
        ChatLoop env c rest
      else
        match (GetStrategy line).Execute env c with
        | (c, some .eof) => c
        | (c, some e) => ChatLoop env (Prompt (LogErr c e) []) rest
        | (c, none) => ChatLoop env (Prompt c []) rest

/-- The `Chat` method from `chat.go`: prompts for the assistant purpose
and runs the scan loop over the input lines. -/
def Chat (env : Env) (c : ChatGPTClient) (lines : List String) : ChatGPTClient :=
  ChatLoop env (Prompt c ["Please describe the purpose of this assistant."]) lines

/-- A `Similarity` pairs a candidate text with its cosine-similarity
score against the query vector.  The `float64` score is modelled as a
rational: `Top` only compares scores, never computes with them. -/
structure Similarity where
  PlainText : String
  Score : ℚ
deriving DecidableEq, Repr

/-- `Similarities`: the query together with the scored candidates. -/
structure Similarities where
  Query : String
  RelevantVectors : List Similarity
deriving DecidableEq, Repr

/-- The descending-score comparison `Top` hands to `sort.Slice`. -/
def scoreDesc (a b : Similarity) : Bool := decide (b.Score ≤ a.Score)

/-- `Top` from the embeddings component: sorts the candidates by
descending score and collects `RelevantVectors[i].PlainText` for
`i = 0, …, n−1`.  The Go loop indexes the slice without a bounds check,
so `n` beyond the candidate count panics with an index-out-of-range;
the panic is modelled as `none`. -/
def Similarities.Top (s : Similarities) (n : Nat) : Option (List String) :=
  let sorted := s.RelevantVectors.mergeSort scoreDesc
  if n ≤ sorted.length then
    some ((sorted.take n).map Similarity.PlainText)
  else
    none

/-! ### Basic facts about the logging wrappers -/

@[simp]
lemma logWithFormatting_chatHistory (c : ChatGPTClient) (m : ChatMessage) :
    (logWithFormatting c m).chatHistory = c.chatHistory := by
  unfold logWithFormatting
  split <;> first | rfl | (split <;> first | rfl | (split <;> rfl))

@[simp]
lemma log_chatHistory (c : ChatGPTClient) (role msg : String) :
    (Log c role msg).chatHistory = c.chatHistory := by
  simp [Log]

lemma goToUpper_system : goToUpper "system" = "SYSTEM" := by decide

@[simp]
lemma log_system_transcript (c : ChatGPTClient) (msg : String) :
    (Log c RoleSystem msg).transcript = c.transcript ++ "SYSTEM) " ++ msg ++ "\n" := by
  simp only [Log, logWithFormatting, RoleSystem, RoleBot, RoleUser]
  rw [if_neg (by decide), if_neg (by decide)]
  show c.transcript ++ (goToUpper "system" ++ ") " ++ msg) ++ "\n" = _
  rw [goToUpper_system]
  simp [String.append_assoc]

@[simp]
lemma logErr_chatHistory (c : ChatGPTClient) (e : GoError) :
    (LogErr c e).chatHistory = c.chatHistory := rfl

@[simp]
lemma logErr_transcript (c : ChatGPTClient) (e : GoError) :
    (LogErr c e).transcript = c.transcript := rfl

@[simp]
lemma logErr_errorStream (c : ChatGPTClient) (e : GoError) :
    (LogErr c e).errorStream = c.errorStream ++ GoError.render e ++ "\n" := rfl

/-! ### Sample clients used by the witnesses -/

/-- A fresh client: empty history, empty writers, no override. -/
def cEmpty : ChatGPTClient := ⟨[], "", "", "", "", false⟩

/-- A client whose history already holds two messages. -/
def cTwo : ChatGPTClient :=
  ⟨[⟨"PURPOSE: p", "system"⟩, ⟨"hi", "user"⟩], "", "", "", "", false⟩

/-- A client with a configured fixed-response override. -/
def cFixed : ChatGPTClient := ⟨[⟨"PURPOSE: p", "system"⟩], "", "", "", "X", false⟩

/-- Claim C3: `SetPurpose` on an empty history appends the single system
message `PURPOSE: <text>`; on a non-empty history it overwrites element 0
and keeps the length; two successive calls on an initially empty history
leave the history at exactly one (the latest) purpose message. -/
theorem claim_C3_setPurpose (c : ChatGPTClient) (text text2 : String) :
    (c.chatHistory = [] →
       (SetPurpose c text).chatHistory = [⟨"PURPOSE: " ++ text, RoleSystem⟩]
       ∧ (SetPurpose (SetPurpose c text) text2).chatHistory
           = [⟨"PURPOSE: " ++ text2, RoleSystem⟩])
  ∧ (c.chatHistory ≠ [] →
       (SetPurpose c text).chatHistory
         = c.chatHistory.set 0 ⟨"PURPOSE: " ++ text, RoleSystem⟩
       ∧ (SetPurpose c text).chatHistory.length = c.chatHistory.length) := by
  constructor
  · intro h
    constructor
    · simp [SetPurpose, h]
    · simp [SetPurpose, h]
  · intro h
    have hp : 0 < c.chatHistory.length := List.length_pos.mpr h
    constructor
    · simp [SetPurpose, hp]
    · simp [SetPurpose, hp]

/-- Witness for C3 at concrete clients. -/
theorem claim_C3_witness :
    (SetPurpose cEmpty "p").chatHistory = [⟨"PURPOSE: p", RoleSystem⟩]
    ∧ (SetPurpose (SetPurpose cEmpty "p") "q").chatHistory
        = [⟨"PURPOSE: q", RoleSystem⟩]
    ∧ (SetPurpose cTwo "p").chatHistory.length = cTwo.chatHistory.length := by
  refine ⟨((claim_C3_setPurpose cEmpty "p" "q").1 rfl).1,
          ((claim_C3_setPurpose cEmpty "p" "q").1 rfl).2,
          ((claim_C3_setPurpose cTwo "p" "q").2 (by decide)).2⟩

/-- Claim C4: `RollbackLastMessage` on a history of length `N > 1`
returns exactly the first `N − 1` elements; on a history of length 0 or
1 it returns the history unchanged; in every case it appends the
rollback notice to the transcript. -/
theorem claim_C4_rollback (c : ChatGPTClient) :
    (1 < c.chatHistory.length →
       (RollbackLastMessage c).chatHistory = c.chatHistory.dropLast
       ∧ (RollbackLastMessage c).chatHistory
           = c.chatHistory.take (c.chatHistory.length - 1)
       ∧ (RollbackLastMessage c).chatHistory.length = c.chatHistory.length - 1)
  ∧ (c.chatHistory.length ≤ 1 →
       (RollbackLastMessage c).chatHistory = c.chatHistory)
  ∧ (RollbackLastMessage c).transcript
      = c.transcript ++ "SYSTEM) Last message rolled back\n" := by
  refine ⟨fun h => ?_, fun h => ?_, ?_⟩
  · refine ⟨?_, ?_, ?_⟩
    · simp [RollbackLastMessage, h]
    · simp [RollbackLastMessage, h, List.dropLast_eq_take]
    · simp [RollbackLastMessage, h]
  · have hn : ¬ 1 < c.chatHistory.length := not_lt.mpr h
    simp [RollbackLastMessage, hn]
  · unfold RollbackLastMessage
    split
    · rw [log_system_transcript]
      simp [String.append_assoc]
    · rw [log_system_transcript]
      simp [String.append_assoc]

/-- Witness for C4 at concrete clients. -/
theorem claim_C4_witness :
    (RollbackLastMessage cTwo).chatHistory = cTwo.chatHistory.dropLast
    ∧ (RollbackLastMessage cFixed).chatHistory = cFixed.chatHistory
    ∧ (RollbackLastMessage cEmpty).transcript
        = cEmpty.transcript ++ "SYSTEM) Last message rolled back\n" := by
  refine ⟨((claim_C4_rollback cTwo).1 (by decide)).1,
          (claim_C4_rollback cFixed).2.1 (by decide),
          (claim_C4_rollback cEmpty).2.2⟩

/-- Claim C5: `GetStrategy` classifies by the first matching rule: a
`>`-prefix yields `FileLoad`, otherwise a `<`-prefix yields `FileWrite`,
otherwise the literal `exit` yields `Exit`, otherwise a `?`-prefix
yields `Default` carrying the fixed question template (discarding the
input), and anything else yields `Default` carrying the raw input. -/
theorem claim_C5_getStrategy (input : String) :
    (goHasPrefix input ">" = true → GetStrategy input = .FileLoad input)
  ∧ (goHasPrefix input ">" = false → goHasPrefix input "<" = true →
       GetStrategy input = .FileWrite input)
  ∧ (input = "exit" → GetStrategy input = .Exit)
  ∧ (goHasPrefix input ">" = false → goHasPrefix input "<" = false →
       input ≠ "exit" → goHasPrefix input "?" = true →
       GetStrategy input = .Default QuestionPrompt)
  ∧ (goHasPrefix input ">" = false → goHasPrefix input "<" = false →
       input ≠ "exit" → goHasPrefix input "?" = false →
       GetStrategy input = .Default input) := by
  refine ⟨fun h1 => ?_, fun h1 h2 => ?_, fun h => ?_, fun h1 h2 h3 h4 => ?_,
          fun h1 h2 h3 h4 => ?_⟩
  · simp [GetStrategy, h1]
  · simp [GetStrategy, h1, h2]
  · subst h
    decide
  · simp [GetStrategy, h1, h2, h3, h4]
  · simp [GetStrategy, h1, h2, h3, h4]

/-- Witness for C5: one concrete input per dispatch rule. -/
theorem claim_C5_witness :
    GetStrategy ">notes.txt" = .FileLoad ">notes.txt"
    ∧ GetStrategy "<out.txt write a poem" = .FileWrite "<out.txt write a poem"
    ∧ GetStrategy "exit" = .Exit
    ∧ GetStrategy "?quiz me" = .Default QuestionPrompt
    ∧ GetStrategy "hello there" = .Default "hello there" := by
  refine ⟨(claim_C5_getStrategy _).1 (by decide),
          (claim_C5_getStrategy _).2.1 (by decide) (by decide),
          (claim_C5_getStrategy _).2.2.1 rfl,
          (claim_C5_getStrategy _).2.2.2.1 (by decide) (by decide) (by decide) (by decide),
          (claim_C5_getStrategy _).2.2.2.2 (by decide) (by decide) (by decide) (by decide)⟩

/-- Claim C6: with a non-empty fixed-response override, `GetCompletion`
returns the override with a nil error and the client state untouched
(history, transcript, output, error stream), and its result does not
depend on the remote service at all. -/
theorem claim_C6_fixedResponse (remote remote2 : Remote) (c : ChatGPTClient)
    (opts : List CompletionOption) (h : c.fixedResponse ≠ "") :
    GetCompletion remote c opts = (c, c.fixedResponse, none)
    ∧ GetCompletion remote c opts = GetCompletion remote2 c opts := by
  constructor <;> simp [GetCompletion, h]

/-- Witness for C6 at a concrete client with override `X`. -/
theorem claim_C6_witness :
    GetCompletion (fun _ => .failure .eof) cFixed [] = (cFixed, "X", none) := by
  exact (claim_C6_fixedResponse (fun _ => .failure .eof) (fun _ => .failure .eof)
    cFixed [] (by decide)).1

@[simp]
lemma logWithFormatting_errorStream (c : ChatGPTClient) (m : ChatMessage) :
    (logWithFormatting c m).errorStream = c.errorStream := by
  unfold logWithFormatting
  split <;> first | rfl | (split <;> first | rfl | (split <;> rfl))

@[simp]
lemma log_errorStream (c : ChatGPTClient) (role msg : String) :
    (Log c role msg).errorStream = c.errorStream := by
  simp [Log]

lemma goHasPrefix_append (p s t : String) (h : goHasPrefix s p = true) :
    goHasPrefix (s ++ t) p = true := by
  unfold goHasPrefix at *
  rw [List.isPrefixOf_iff_prefix] at *
  rw [String.data_append]
  exact h.trans (List.prefix_append _ _)

/-- Claim C2: the chat loop on the lines `You help me test`, `Request`,
`exit` with the fixed-response override `Fixed response` writes exactly
the four newline-terminated transcript lines `SYSTEM) PURPOSE: You help
me test`, `USER) Request`, `ASSISTANT) Fixed response`, `USER) *exit*`,
in that order and nothing else, for every remote environment and either
streaming mode. -/
theorem claim_C2_chatTranscript (env : Env) (streaming : Bool) :
    (Chat env ⟨[], "", "", "", "Fixed response", streaming⟩
       ["You help me test", "Request", "exit"]).transcript =
    "SYSTEM) PURPOSE: You help me test\nUSER) Request\nASSISTANT) Fixed response\nUSER) *exit*\n" :=
  rfl

/-- Claim C1: with no fixed-response override, a stream-creation failure
reporting HTTP 400 makes `GetCompletion` log the error to the error
stream, roll the last message back (only when the history holds more
than one message), and return a reply starting with `Backing out of
transaction` together with a nil error. -/
theorem claim_C1_backOut (remote : Remote) (c : ChatGPTClient)
    (opts : List CompletionOption) (msg : String)
    (hfix : c.fixedResponse = "")
    (hremote : remote (buildRequest c opts) = .failure (.api 400 msg)) :
    (GetCompletion remote c opts).2.2 = none
  ∧ (GetCompletion remote c opts).2.1 = "Backing out of transaction: " ++ msg
  ∧ goHasPrefix (GetCompletion remote c opts).2.1 "Backing out of transaction" = true
  ∧ (GetCompletion remote c opts).1.errorStream
      = c.errorStream ++ GoError.render (.api 400 msg) ++ "\n"
  ∧ (1 < c.chatHistory.length →
       (GetCompletion remote c opts).1.chatHistory = c.chatHistory.dropLast)
  ∧ (c.chatHistory.length ≤ 1 →
       (GetCompletion remote c opts).1.chatHistory = c.chatHistory) := by
  have key : GetCompletion remote c opts
      = (RollbackLastMessage (LogErr c (.api 400 msg)),
         "Backing out of transaction: " ++ msg, none) := by
    simp [GetCompletion, hfix, submitCompletion, hremote]
  refine ⟨by rw [key], by rw [key], ?_, ?_, fun h => ?_, fun h => ?_⟩
  · rw [key]
    exact goHasPrefix_append _ _ _ (by decide)
  · rw [key]
    show (RollbackLastMessage (LogErr c (.api 400 msg))).errorStream = _
    unfold RollbackLastMessage
    split <;> simp
  · rw [key]
    show (RollbackLastMessage (LogErr c (.api 400 msg))).chatHistory = _
    simp [RollbackLastMessage, h]
  · rw [key]
    show (RollbackLastMessage (LogErr c (.api 400 msg))).chatHistory = _
    have hn : ¬ 1 < c.chatHistory.length := not_lt.mpr h
    simp [RollbackLastMessage, hn]

/-- Witness for C1: a two-message history, a remote that always fails
with HTTP 400. -/
theorem claim_C1_witness :
    ((GetCompletion (fun _ => .failure (.api 400 "too large")) cTwo []).2.2 = none)
    ∧ (GetCompletion (fun _ => .failure (.api 400 "too large")) cTwo []).2.1
        = "Backing out of transaction: " ++ "too large"
    ∧ (GetCompletion (fun _ => .failure (.api 400 "too large")) cTwo []).1.chatHistory
        = cTwo.chatHistory.dropLast := by
  have h := claim_C1_backOut (fun _ => .failure (.api 400 "too large")) cTwo []
    "too large" (by decide) rfl
  exact ⟨h.1, h.2.1, h.2.2.2.2.1 (by decide)⟩

/-- Claim C7: with no fixed-response override, a stream-creation failure
reporting HTTP 401 makes `GetCompletion` log the error to the error
stream and return an empty reply with a hard (non-nil) authorization
error; the chat history is not rolled back and the transcript gets no
rollback notice. -/
theorem claim_C7_unauthorized (remote : Remote) (c : ChatGPTClient)
    (opts : List CompletionOption) (msg : String)
    (hfix : c.fixedResponse = "")
    (hremote : remote (buildRequest c opts) = .failure (.api 401 msg)) :
    (GetCompletion remote c opts).2.1 = ""
  ∧ (GetCompletion remote c opts).2.2
      = some (.simple "unauthorized. Please check your OPENAI_TOKEN env var or pass a token in explicitly")
  ∧ (GetCompletion remote c opts).2.2 ≠ none
  ∧ (GetCompletion remote c opts).1.errorStream
      = c.errorStream ++ GoError.render (.api 401 msg) ++ "\n"
  ∧ (GetCompletion remote c opts).1.chatHistory = c.chatHistory
  ∧ (GetCompletion remote c opts).1.transcript = c.transcript := by
  have key : GetCompletion remote c opts
      = (LogErr c (.api 401 msg), "",
         some (.simple "unauthorized. Please check your OPENAI_TOKEN env var or pass a token in explicitly")) := by
    simp [GetCompletion, hfix, submitCompletion, hremote]
  refine ⟨by rw [key], by rw [key], by rw [key]; simp, by rw [key]; rfl,
          by rw [key]; rfl, by rw [key]; rfl⟩

/-- Witness for C7: a remote that always fails with HTTP 401. -/
theorem claim_C7_witness :
    (GetCompletion (fun _ => .failure (.api 401 "bad token")) cTwo []).2.1 = ""
    ∧ (GetCompletion (fun _ => .failure (.api 401 "bad token")) cTwo []).1.chatHistory
        = cTwo.chatHistory := by
  have h := claim_C7_unauthorized (fun _ => .failure (.api 401 "bad token")) cTwo []
    "bad token" (by decide) rfl
  exact ⟨h.1, h.2.2.2.2.1⟩

/-- Claim C10: an empty fixed-response override behaves as no override:
`GetCompletion` short-circuits exactly when the override text is
non-empty; with an empty override it proceeds to the submission path,
whose result genuinely depends on the remote service. -/
theorem claim_C10_emptyOverride (c : ChatGPTClient) (opts : List CompletionOption) :
    (WithFixedResponse "" c).fixedResponse = ""
  ∧ (c.fixedResponse = "" →
       (∀ remote, GetCompletion remote c opts = submitCompletion remote c opts)
       ∧ ∃ r1 r2 : Remote, GetCompletion r1 c opts ≠ GetCompletion r2 c opts)
  ∧ (c.fixedResponse ≠ "" → ∀ remote,
       GetCompletion remote c opts = (c, c.fixedResponse, none)) := by
  refine ⟨rfl, fun h => ⟨fun remote => by simp [GetCompletion, h], ?_⟩,
          fun h remote => by simp [GetCompletion, h]⟩
  refine ⟨fun _ => .failure (.simple "error A"), fun _ => .failure (.simple "error B"), ?_⟩
  intro heq
  have h2 := congrArg (fun p => p.2.2) heq
  simp [GetCompletion, h, submitCompletion] at h2

/-- Witness for C10: the empty override proceeds to submission, the
non-empty override short-circuits. -/
theorem claim_C10_witness :
    (∃ r1 r2 : Remote, GetCompletion r1 cEmpty [] ≠ GetCompletion r2 cEmpty [])
    ∧ GetCompletion (fun _ => .failure .eof) cFixed [] = (cFixed, cFixed.fixedResponse, none) := by
  exact ⟨((claim_C10_emptyOverride cEmpty []).2.1 rfl).2,
         (claim_C10_emptyOverride cFixed []).2.2 (by decide) (fun _ => .failure .eof)⟩

/-! ### Sequences of message-log operations (claim C9) -/

/-- The three message-log operations the session engine performs. -/
inductive LogOp where
  | setPurpose (text : String)
  | record (role text : String)
  | rollback
deriving DecidableEq, Repr

/-- Whether an operation is a `SetPurpose` call. -/
def LogOp.isSetPurpose : LogOp → Bool
  | .setPurpose _ => true
  | _ => false

/-- Interpretation of one message-log operation on the client. -/
def LogOp.apply (c : ChatGPTClient) : LogOp → ChatGPTClient
  | .setPurpose t => SetPurpose c t
  | .record role t => RecordMessage c role t
  | .rollback => RollbackLastMessage c

/-- Running a sequence of message-log operations left to right. -/
def runOps (c : ChatGPTClient) (ops : List LogOp) : ChatGPTClient :=
  ops.foldl LogOp.apply c

lemma setPurpose_head (c : ChatGPTClient) (t : String) :
    (SetPurpose c t).chatHistory.head? = some ⟨"PURPOSE: " ++ t, RoleSystem⟩ := by
  unfold SetPurpose
  rw [log_chatHistory]
  cases hc : c.chatHistory with
  | nil => simp [hc]
  | cons a l => simp [hc]

lemma record_head (c : ChatGPTClient) (role t : String) (h : c.chatHistory ≠ []) :
    (RecordMessage c role t).chatHistory.head? = c.chatHistory.head? := by
  unfold RecordMessage
  rw [log_chatHistory]
  cases hc : c.chatHistory with
  | nil => exact absurd hc h
  | cons a l => simp [hc]

lemma rollback_head (c : ChatGPTClient) (h : c.chatHistory ≠ []) :
    (RollbackLastMessage c).chatHistory.head? = c.chatHistory.head? := by
  unfold RollbackLastMessage
  rw [log_chatHistory]
  split
  · rename_i hlen
    cases hc : c.chatHistory with
    | nil => exact absurd hc h
    | cons a l =>
        cases l with
        | nil => rw [hc] at hlen; simp at hlen
        | cons b l2 => simp [hc]
  · rfl

/-- Claim C9: starting from an empty history, after any prefix of
operations followed by `SetPurpose t` followed by any operations that
are not `SetPurpose`, element 0 of the history is exactly the system
message `PURPOSE: t`: no later `RecordMessage` or `RollbackLastMessage`
removes or displaces the most recent purpose. -/
theorem claim_C9_purposePinned (pre post : List LogOp) (t : String)
    (c : ChatGPTClient) (hc : c.chatHistory = [])
    (hpost : ∀ op ∈ post, op.isSetPurpose = false) :
    (runOps c (pre ++ LogOp.setPurpose t :: post)).chatHistory.head?
      = some ⟨"PURPOSE: " ++ t, RoleSystem⟩ := by
  clear hc
  have hrun : runOps c (pre ++ LogOp.setPurpose t :: post)
      = runOps (LogOp.apply (runOps c pre) (.setPurpose t)) post := by
    simp [runOps, List.foldl_append]
  rw [hrun]
  have H : ∀ (ops : List LogOp), (∀ op ∈ ops, op.isSetPurpose = false) →
      ∀ (d : ChatGPTClient),
        d.chatHistory.head? = some ⟨"PURPOSE: " ++ t, RoleSystem⟩ →
        (runOps d ops).chatHistory.head? = some ⟨"PURPOSE: " ++ t, RoleSystem⟩ := by
    intro ops
    induction ops with
    | nil => exact fun _ d hd => hd
    | cons op rest ih =>
        intro hops d hd
        have hne : d.chatHistory ≠ [] := by
          intro h0
          rw [h0] at hd
          simp at hd
        have hstep : (LogOp.apply d op).chatHistory.head?
            = some ⟨"PURPOSE: " ++ t, RoleSystem⟩ := by
          cases op with
          | setPurpose s =>
              have := hops _ (List.mem_cons_self _ _)
              simp [LogOp.isSetPurpose] at this
          | record role s => rw [LogOp.apply, record_head d role s hne, hd]
          | rollback => rw [LogOp.apply, rollback_head d hne, hd]
        have : runOps d (op :: rest) = runOps (LogOp.apply d op) rest := rfl
        rw [this]
        exact ih (fun op2 hm => hops op2 (List.mem_cons_of_mem _ hm)) _ hstep
  exact H post hpost _ (setPurpose_head _ t)

/-- Witness for C9: a record before the purpose, then a record and two
rollbacks after it. -/
theorem claim_C9_witness :
    (runOps cEmpty ([LogOp.record "user" "early"] ++ LogOp.setPurpose "goal" ::
        [LogOp.record "user" "x", LogOp.rollback, LogOp.rollback])).chatHistory.head?
      = some ⟨"PURPOSE: goal", RoleSystem⟩ :=
  claim_C9_purposePinned [LogOp.record "user" "early"]
    [LogOp.record "user" "x", LogOp.rollback, LogOp.rollback] "goal" cEmpty rfl
    (by decide)

/-- Counterexample to C8 as stated: with a single scored candidate,
`Top 2` runs the collection loop past the end of the slice and panics
with an index-out-of-range (modelled as `none`), rather than returning
normally. -/
theorem claim_C8_counterexample :
    Similarities.Top ⟨"q", [⟨"a", 1⟩]⟩ 2 = none := by
  simp only [Similarities.Top, List.length_mergeSort]
  norm_num

/-- Claim C8 as amended: `Top k` with `k` at most the candidate count
returns `k` texts, and at exactly the candidate count it returns the
texts of a descending-score-sorted permutation of the candidates; but
`Top k` with `k` greater than the candidate count indexes past the end
of the slice and panics (modelled as `none`). -/
theorem claim_C8_top (s : Similarities) (n : Nat) :
    (s.RelevantVectors.length < n → s.Top n = none)
  ∧ (n ≤ s.RelevantVectors.length → ∃ l, s.Top n = some l ∧ l.length = n)
  ∧ (∃ sorted : List Similarity,
       sorted.Perm s.RelevantVectors
       ∧ sorted.Pairwise (fun a b => b.Score ≤ a.Score)
       ∧ s.Top s.RelevantVectors.length = some (sorted.map Similarity.PlainText)) := by
  refine ⟨fun h => ?_, fun h => ?_, ?_⟩
  · simp only [Similarities.Top, List.length_mergeSort]
    rw [if_neg (by omega)]
  · refine ⟨((s.RelevantVectors.mergeSort scoreDesc).take n).map Similarity.PlainText,
        ?_, ?_⟩
    · simp only [Similarities.Top]
      rw [if_pos (by rw [List.length_mergeSort]; exact h)]
    · simp [List.length_take, List.length_mergeSort]
      omega
  · refine ⟨s.RelevantVectors.mergeSort scoreDesc, List.mergeSort_perm _ _, ?_, ?_⟩
    · have hs := @List.sorted_mergeSort _ scoreDesc
        (fun a b c hab hbc => by
          simp only [scoreDesc, decide_eq_true_eq] at *
          exact le_trans hbc hab)
        (fun a b => by
          simp only [scoreDesc, Bool.or_eq_true, decide_eq_true_eq]
          exact le_total b.Score a.Score)
        s.RelevantVectors
      exact hs.imp (fun h => by simpa [scoreDesc] using h)
    · simp only [Similarities.Top]
      rw [if_pos (by rw [List.length_mergeSort])]
      rw [show (s.RelevantVectors.mergeSort scoreDesc).take s.RelevantVectors.length
            = s.RelevantVectors.mergeSort scoreDesc from by
          rw [← @List.length_mergeSort _ scoreDesc s.RelevantVectors]
          exact List.take_length _]

/-- Witness for C8 as amended: two candidates, `Top 2` succeeds with two
texts and `Top 3` panics. -/
theorem claim_C8_witness :
    (∃ l, Similarities.Top ⟨"q", [⟨"a", (1 : ℚ)⟩, ⟨"b", 2⟩]⟩ 2 = some l ∧ l.length = 2)
    ∧ Similarities.Top ⟨"q", [⟨"a", (1 : ℚ)⟩, ⟨"b", 2⟩]⟩ 3 = none := by
  exact ⟨(claim_C8_top ⟨"q", [⟨"a", (1 : ℚ)⟩, ⟨"b", 2⟩]⟩ 2).2.1 (by decide),
         (claim_C8_top ⟨"q", [⟨"a", (1 : ℚ)⟩, ⟨"b", 2⟩]⟩ 3).1 (by decide)⟩

end Chatproxy
